import Mathlib

/-!
Shallow embedding of selected CEGUI components, translated from the
repository sources:
  cegui/include/CEGUI/Window.h            (isEffectiveVisible, WindowUpdateMode helper)
  cegui/src/widgets/FrameWindow.cpp       (getSizingBorderAtPoint, moveRightEdge)
  cegui/src/widgets/Titlebar.cpp          (onCursorPressHold)
  cegui/src/RendererModules/OpenGL/GL3Renderer.cpp
                                          (bootstrapSystem, destroySystem,
                                           setupRenderingBlendMode, uploadVertexData)
  samples/Inventory/InventoryItem.cpp     (onMoved, onDragDropTargetChanged,
                                           populateGeometryBuffer tint)
Floating point values in the sources are modelled with rationals; all the
verified scenarios use values that are exact in IEEE single precision, so no
rounding behaviour is lost.
-/

namespace CEGUI

/-! ## Basic geometry types (glm::vec2, CEGUI::Rectf, CEGUI::Sizef) -/

/-- Model of glm::vec2 with rational coordinates. -/
structure Vec2 where
  x : ℚ
  y : ℚ
deriving DecidableEq

/-- Model of CEGUI::Sizef. -/
structure Sizef where
  d_width : ℚ
  d_height : ℚ
deriving DecidableEq

/-- Model of CEGUI::Rectf as a min corner and a max corner. -/
structure Rectf where
  d_min : Vec2
  d_max : Vec2
deriving DecidableEq

/-- Modelled from the spec: Rectf.isPointInRectf is declared outside the
provided sources (the Rectf header is not part of src). The spec requires the
point to be inside the outer edge of the rect; membership is min-inclusive and
max-exclusive on both axes, matching the strict inequalities the sizing code
uses for its own max edges. -/
def Rectf.isPointInRectf (r : Rectf) (pt : Vec2) : Bool :=
  decide (r.d_min.x ≤ pt.x) && decide (pt.x < r.d_max.x) &&
  decide (r.d_min.y ≤ pt.y) && decide (pt.y < r.d_max.y)

/-- Modelled from the spec: Rectf.getIntersection is declared outside the
provided sources; it returns the componentwise intersection of two rects. -/
def Rectf.getIntersection (r other : Rectf) : Rectf :=
  ⟨⟨max r.d_min.x other.d_min.x, max r.d_min.y other.d_min.y⟩,
   ⟨min r.d_max.x other.d_max.x, min r.d_max.y other.d_max.y⟩⟩

/-! ## Window.h: effective visibility (Window::isEffectiveVisible)

The source reads:
  return d_visible && (!d_parent || getParent()->isEffectiveVisible());
A window is modelled by its own visible flag together with its chain of
ancestors, which is all the state this recursion ever touches. -/

/-- A window carries its local visible flag and either no parent (root) or a
parent window. -/
inductive Win : Type where
  | root : Bool → Win
  | child : Bool → Win → Win
deriving DecidableEq

/-- The locally stored visible flag d_visible. -/
def Win.d_visible : Win → Bool
  | .root v => v
  | .child v _ => v

/-- The parent pointer d_parent: none for a root window. -/
def Win.d_parent : Win → Option Win
  | .root _ => none
  | .child _ p => some p

/-- Transcription of Window::isEffectiveVisible:
d_visible AND (no parent OR the parent is effectively visible). -/
def Win.isEffectiveVisible : Win → Bool
  | .root v => v
  | .child v p => v && p.isEffectiveVisible

/-- The chain of ancestors of a window, nearest first. -/
def Win.ancestors : Win → List Win
  | .root _ => []
  | .child _ p => p :: p.ancestors

/-- Effective visibility equals the conjunction of the local flag and every
ancestor local flag, the characterisation the spec gives in section 4.4.2. -/
theorem Win.isEffectiveVisible_eq_all (w : Win) :
    w.isEffectiveVisible = (w.d_visible && w.ancestors.all Win.d_visible) := by
  induction w with
  | root v => simp [Win.isEffectiveVisible, Win.d_visible, Win.ancestors]
  | child v p ih =>
      simp [Win.isEffectiveVisible, Win.d_visible, Win.ancestors, ih,
        Bool.and_assoc]

/-! ## Window.h: PropertyHelper for WindowUpdateMode -/

/-- The WindowUpdateMode enumeration from Window.h. -/
inductive WindowUpdateMode : Type where
  | Always
  | Never
  | Visible
deriving DecidableEq

namespace PropertyHelperWindowUpdateMode

/-- Transcription of PropertyHelper for WindowUpdateMode, fromString: compare
against "Always", then "Never", and fall through to Visible otherwise. -/
def fromString (s : String) : WindowUpdateMode :=
  if s = "Always" then WindowUpdateMode.Always
  else if s = "Never" then WindowUpdateMode.Never
  else WindowUpdateMode.Visible

/-- Transcription of PropertyHelper for WindowUpdateMode, toString. The final
assert-and-return branch of the source is unreachable because the Lean
enumeration is exact. -/
def toString : WindowUpdateMode → String
  | WindowUpdateMode.Always => "Always"
  | WindowUpdateMode.Never => "Never"
  | WindowUpdateMode.Visible => "Visible"

end PropertyHelperWindowUpdateMode

/-! ## FrameWindow.cpp: getSizingBorderAtPoint

The nine sizing zones and the border classification logic. The source first
checks isSizingEnabled() and isFrameEnabled(), then that the point lies inside
the outer sizing rect, insets that rect by d_borderSize, computes the four
edge booleans, and classifies corners before single edges. getSizingRect() is
declared in the FrameWindow header, which is outside the provided sources, so
the outer rect is carried as explicit state. -/

/-- The FrameWindow SizingLocation enumeration. -/
inductive SizingLocation : Type where
  | Invalid
  | TopLeft
  | TopRight
  | BottomLeft
  | BottomRight
  | Top
  | Bottom
  | Left
  | Right
deriving DecidableEq

/-- The slice of FrameWindow state that getSizingBorderAtPoint consults:
the two enable flags, the border thickness, and the outer sizing rect
returned by getSizingRect(). -/
structure FrameWindowSizing where
  d_sizingEnabled : Bool
  d_frameEnabled : Bool
  d_borderSize : ℚ
  sizingRect : Rectf
deriving DecidableEq

/-- Inset of a rect by the border size: the source adds d_borderSize to both
min coordinates and subtracts it from both max coordinates. -/
def insetByBorder (frame : Rectf) (border : ℚ) : Rectf :=
  ⟨⟨frame.d_min.x + border, frame.d_min.y + border⟩,
   ⟨frame.d_max.x - border, frame.d_max.y - border⟩⟩

/-- Transcription of FrameWindow::getSizingBorderAtPoint. -/
def FrameWindowSizing.getSizingBorderAtPoint
    (fw : FrameWindowSizing) (pt : Vec2) : SizingLocation :=
  let frame := fw.sizingRect
  if fw.d_sizingEnabled && fw.d_frameEnabled then
    if frame.isPointInRectf pt then
      let inner := insetByBorder frame fw.d_borderSize
      let top : Bool := decide (pt.y < inner.d_min.y)
      let bottom : Bool := decide (pt.y ≥ inner.d_max.y)
      let left : Bool := decide (pt.x < inner.d_min.x)
      let right : Bool := decide (pt.x ≥ inner.d_max.x)
      if top && left then SizingLocation.TopLeft
      else if top && right then SizingLocation.TopRight
      else if bottom && left then SizingLocation.BottomLeft
      else if bottom && right then SizingLocation.BottomRight
      else if top then SizingLocation.Top
      else if bottom then SizingLocation.Bottom
      else if left then SizingLocation.Left
      else if right then SizingLocation.Right
      else SizingLocation.Invalid
    else SizingLocation.Invalid
  else SizingLocation.Invalid

/-- The concrete FrameWindow configuration of the claim: sizing and frame
enabled, border thickness 8, outer sizing rect from (0,0) to (200,100). -/
def fwDemo : FrameWindowSizing :=
  ⟨true, true, 8, ⟨⟨0, 0⟩, ⟨200, 100⟩⟩⟩

/-! ## FrameWindow.cpp: moveRightEdge

Resizing by dragging the right edge. The unified dimension types mirror the
CEGUI UDim family (scale relative to a base size plus an absolute offset). -/

/-- Model of CEGUI::UDim. -/
structure UDim where
  d_scale : ℚ
  d_offset : ℚ
deriving DecidableEq

/-- Model of CEGUI::UVector2. -/
structure UVector2 where
  d_x : UDim
  d_y : UDim
deriving DecidableEq

/-- Model of CEGUI::USize. -/
structure USize where
  d_width : UDim
  d_height : UDim
deriving DecidableEq

/-- Model of CEGUI::URect. -/
structure URect where
  d_min : UVector2
  d_max : UVector2
deriving DecidableEq

/-- Modelled from the spec: CoordConverter.asAbsolute is declared outside the
provided sources. Per the spec each axis is expressed as an absolute offset
plus a parent-relative scale, so the absolute value against a base length is
scale times base plus offset. -/
def CoordConverter.asAbsolute (u : UDim) (base : ℚ) : ℚ :=
  u.d_scale * base + u.d_offset

/-- HorizontalAlignment values consulted by the edge movers. -/
inductive HorizontalAlignment : Type where
  | Left
  | Centre
  | Right
deriving DecidableEq

/-- The slice of FrameWindow and Window state that moveRightEdge consults:
current pixel size, min and max size constraints, the root container size the
constraints are resolved against, the window size and the base pixel size it
resolves against, the horizontal alignment, and the drag anchor point. -/
structure FrameWindowEdge where
  d_pixelSize : Sizef
  d_minSize : USize
  d_maxSize : USize
  rootContainerSize : Sizef
  size : USize
  basePixelSize : Sizef
  d_horizontalAlignment : HorizontalAlignment
  d_dragPoint : Vec2
deriving DecidableEq

/-- Transcription of FrameWindow::moveRightEdge. It returns the updated area
rectangle together with the updated drag anchor point; the source mutates
outArea and d_dragPoint in place. -/
def FrameWindowEdge.moveRightEdge
    (fw : FrameWindowEdge) (delta : ℚ) (outArea : URect) : URect × Vec2 :=
  let newWidth0 := fw.d_pixelSize.d_width + delta
  let rootWidth := fw.rootContainerSize.d_width
  let maxWidth := CoordConverter.asAbsolute fw.d_maxSize.d_width rootWidth
  let minWidth := CoordConverter.asAbsolute fw.d_minSize.d_width rootWidth
  let newWidth :=
    if maxWidth ≠ 0 ∧ newWidth0 > maxWidth then maxWidth
    else if newWidth0 < minWidth then minWidth
    else newWidth0
  let unlimitedWidth :=
    CoordConverter.asAbsolute fw.size.d_width fw.basePixelSize.d_width
  if unlimitedWidth = newWidth then (outArea, fw.d_dragPoint)
  else
    let adjustment := newWidth - unlimitedWidth
    let a1 : URect :=
      { outArea with d_max :=
        { outArea.d_max with d_x :=
          { outArea.d_max.d_x with
            d_offset := outArea.d_max.d_x.d_offset + adjustment } } }
    let a2 : URect :=
      match fw.d_horizontalAlignment with
      | HorizontalAlignment.Right =>
          { a1 with
            d_max := { a1.d_max with d_x :=
              { a1.d_max.d_x with
                d_offset := a1.d_max.d_x.d_offset + adjustment } },
            d_min := { a1.d_min with d_x :=
              { a1.d_min.d_x with
                d_offset := a1.d_min.d_x.d_offset + adjustment } } }
      | HorizontalAlignment.Centre =>
          { a1 with
            d_max := { a1.d_max with d_x :=
              { a1.d_max.d_x with
                d_offset := a1.d_max.d_x.d_offset + adjustment * (1/2) } },
            d_min := { a1.d_min with d_x :=
              { a1.d_min.d_x with
                d_offset := a1.d_min.d_x.d_offset + adjustment * (1/2) } } }
      | HorizontalAlignment.Left => a1
    let dragPoint : Vec2 :=
      ⟨fw.d_dragPoint.x + (newWidth - fw.d_pixelSize.d_width), fw.d_dragPoint.y⟩
    (a2, dragPoint)

/-- The concrete FrameWindow of the claim: current pixel width 100, minimum
width 50, maximum width 300 (both absolute offsets), left alignment, with an
800x600 root container. -/
def fwEdgeDemo : FrameWindowEdge where
  d_pixelSize := ⟨100, 50⟩
  d_minSize := ⟨⟨0, 50⟩, ⟨0, 0⟩⟩
  d_maxSize := ⟨⟨0, 300⟩, ⟨0, 0⟩⟩
  rootContainerSize := ⟨800, 600⟩
  size := ⟨⟨0, 100⟩, ⟨0, 50⟩⟩
  basePixelSize := ⟨800, 600⟩
  d_horizontalAlignment := HorizontalAlignment.Left
  d_dragPoint := ⟨100, 25⟩

/-- The concrete area of the claim window: offsets (0,0) to (100,50). -/
def areaDemo : URect :=
  ⟨⟨⟨0, 0⟩, ⟨0, 0⟩⟩, ⟨⟨0, 100⟩, ⟨0, 50⟩⟩⟩

/-- Pixel width of an area expressed purely through offsets. -/
def URect.offsetWidth (a : URect) : ℚ :=
  a.d_max.d_x.d_offset - a.d_min.d_x.d_offset

/-! ## GL3Renderer.cpp: setupRenderingBlendMode

The renderer keeps the active blend mode cached in d_activeBlendMode and
forwards blend calls to the state-change wrapper. The issued wrapper calls
are modelled as an explicit trace list. -/

/-- The BlendMode enumeration values the renderer distinguishes. -/
inductive BlendMode : Type where
  | Normal
  | RttPremultiplied
deriving DecidableEq

/-- The GL blend factor constants that appear in the blend setup. -/
inductive GLBlendFactor : Type where
  | GL_ONE
  | GL_ZERO
  | GL_SRC_ALPHA
  | GL_ONE_MINUS_SRC_ALPHA
  | GL_ONE_MINUS_DST_ALPHA
deriving DecidableEq

/-- A blend call issued to the state-change wrapper. -/
inductive GLBlendCall : Type where
  | blendFunc (sfactor dfactor : GLBlendFactor)
  | blendFuncSeparate (srcRGB dstRGB srcAlpha dstAlpha : GLBlendFactor)
deriving DecidableEq

/-- The renderer state setupRenderingBlendMode reads and writes. -/
structure RendererBlendState where
  d_activeBlendMode : BlendMode
deriving DecidableEq

/-- Transcription of OpenGL3Renderer::setupRenderingBlendMode: exit issuing
nothing if the mode is already set up and the update is not forced, otherwise
record the mode and issue the blend call for it. -/
def setupRenderingBlendMode (st : RendererBlendState) (mode : BlendMode)
    (force : Bool) : RendererBlendState × List GLBlendCall :=
  if st.d_activeBlendMode = mode ∧ force = false then (st, [])
  else
    let st1 : RendererBlendState := { st with d_activeBlendMode := mode }
    if mode = BlendMode.RttPremultiplied then
      (st1, [GLBlendCall.blendFunc GLBlendFactor.GL_ONE
        GLBlendFactor.GL_ONE_MINUS_SRC_ALPHA])
    else
      (st1, [GLBlendCall.blendFuncSeparate GLBlendFactor.GL_SRC_ALPHA
        GLBlendFactor.GL_ONE_MINUS_SRC_ALPHA
        GLBlendFactor.GL_ONE_MINUS_DST_ALPHA GLBlendFactor.GL_ONE])

/-! ## GL3Renderer.cpp: uploadVertexData (big-buffer mode)

Upload of one of the two shared vertex vectors into its VBO. The GL calls
are modelled as a trace; sizeof(float) is 4 bytes. -/

/-- A GL buffer call issued during the upload. -/
inductive GLBufferCall : Type where
  | bindBuffer
  | bufferData (byteSize : ℕ)
  | bufferSubData (byteSize : ℕ)
deriving DecidableEq

/-- Transcription of OpenGL3Renderer::uploadVertexData: nothing happens for
empty vertex data; otherwise the buffer is bound and either reallocated with
bufferData (updating the recorded capacity vbo_max_size) when the byte size
exceeds the capacity, or updated in place with bufferSubData. The returned
number is the new recorded capacity. -/
def uploadVertexData (vertex_data : List ℚ) (vbo_max_size : ℕ) :
    ℕ × List GLBufferCall :=
  if vertex_data.isEmpty then (vbo_max_size, [])
  else if vertex_data.length * 4 > vbo_max_size then
    (vertex_data.length * 4,
      [GLBufferCall.bindBuffer, GLBufferCall.bufferData (vertex_data.length * 4)])
  else
    (vbo_max_size,
      [GLBufferCall.bindBuffer, GLBufferCall.bufferSubData (vertex_data.length * 4)])

/-! ## GL3Renderer.cpp: bootstrapSystem and destroySystem

The System singleton, the renderer and the default resource provider are
modelled abstractly: bootstrapSystem performs the ABI version test, refuses a
second initialisation, and otherwise creates the renderer, a
DefaultResourceProvider and the System; destroySystem refuses when no System
exists and otherwise tears everything down. -/

/-- The error kinds these entry points can raise. -/
inductive CEGUIError : Type where
  | InvalidRequest
  | VersionMismatch
deriving DecidableEq

/-- Modelled from the spec: the numeric value of CEGUI_VERSION_ABI is defined
outside the provided sources; only equality with the caller-supplied value
matters, so an arbitrary fixed constant stands in for it. -/
def CEGUI_VERSION_ABI : Int := 0

/-- The installed singleton System: the renderer and the default resource
provider it owns. -/
structure SystemRecord where
  rendererCreated : Bool
  resourceProviderCreated : Bool
deriving DecidableEq

/-- Global singleton state: System::getSingletonPtr is some record when a
System exists and none otherwise. -/
structure SystemState where
  system : Option SystemRecord
deriving DecidableEq

/-- Transcription of OpenGL3Renderer::bootstrapSystem: run the version test,
fail with InvalidRequest when a System already exists, otherwise create the
renderer and a DefaultResourceProvider and install the System. The version
test itself is modelled from the spec (fail fast on an ABI mismatch), since
System::performVersionTest is outside the provided sources. -/
def bootstrapSystem (abi : Int) (st : SystemState) :
    Except CEGUIError SystemState :=
  if abi ≠ CEGUI_VERSION_ABI then Except.error CEGUIError.VersionMismatch
  else if st.system.isSome then Except.error CEGUIError.InvalidRequest
  else Except.ok ⟨some ⟨true, true⟩⟩

/-- Transcription of OpenGL3Renderer::destroySystem: fail with InvalidRequest
when no System exists, otherwise destroy the System, the resource provider
and the renderer. -/
def destroySystem (st : SystemState) : Except CEGUIError SystemState :=
  match st.system with
  | none => Except.error CEGUIError.InvalidRequest
  | some _ => Except.ok ⟨none⟩

/-! ## InventoryItem.cpp: drop validity and render tint

The occupancy grids, the receiver fit test, the recomputation of
d_validDropTarget in onMoved and onDragDropTargetChanged, and the tint chosen
by populateGeometryBuffer. -/

/-- A 2D boolean occupancy grid (the BoolArray2D content of items and
receivers), stored as rows of cells. -/
structure BoolGrid where
  d_width : ℕ
  d_height : ℕ
  rows : List (List Bool)
deriving DecidableEq

/-- Cell lookup elementAtLocation; out-of-range locations read as not set. -/
def BoolGrid.elementAtLocation (g : BoolGrid) (x y : Int) : Bool :=
  if 0 ≤ x ∧ x < g.d_width ∧ 0 ≤ y ∧ y < g.d_height then
    (g.rows.getD y.toNat []).getD x.toNat false
  else false

/-- The slice of InventoryReceiver state the item consults: its occupancy
grid, its cell pixel size (squarePixelSize) and the base pixel rect its grid
coordinates are measured from (gridBasePixelRect). -/
structure InventoryReceiver where
  d_content : BoolGrid
  squareSize : Sizef
  basePixelRect : Rectf
deriving DecidableEq

/-- Truncation toward zero of a rational, matching a C float-to-int cast. -/
def truncToInt (q : ℚ) : Int :=
  Int.tdiv q.num q.den

/-- Modelled from the spec: InventoryBase.gridXLocationFromPixelPosition is
outside the provided sources; per the spec it maps a pixel coordinate to the
grid column by measuring from the left of the base pixel rect in units of the
cell width. -/
def InventoryReceiver.gridXLocationFromPixelPosition
    (r : InventoryReceiver) (px : ℚ) : Int :=
  truncToInt ((px - r.basePixelRect.d_min.x) / r.squareSize.d_width)

/-- Modelled from the spec: InventoryBase.gridYLocationFromPixelPosition is
outside the provided sources; the row analogue of the column mapping. -/
def InventoryReceiver.gridYLocationFromPixelPosition
    (r : InventoryReceiver) (py : ℚ) : Int :=
  truncToInt ((py - r.basePixelRect.d_min.y) / r.squareSize.d_height)

/-- The slice of InventoryItem state these handlers touch: occupancy grid,
dragging flag, cached drop-target validity, and the unclipped outer pixel
rect of the item. -/
structure InventoryItem where
  d_content : BoolGrid
  d_dragging : Bool
  d_validDropTarget : Bool
  unclippedOuterRect : Rectf
deriving DecidableEq

/-- Modelled from the spec: InventoryReceiver.itemWillFitAtLocation is
outside the provided sources. Per the spec the receiver consults its
occupancy grid for the item footprint: the item fits at grid location (x, y)
when the footprint lies inside the receiver grid and no solid cell of the
item overlaps an occupied receiver cell. -/
def InventoryReceiver.itemWillFitAtLocation
    (r : InventoryReceiver) (item : InventoryItem) (x y : Int) : Bool :=
  decide (0 ≤ x) && decide (0 ≤ y) &&
  decide (x + item.d_content.d_width ≤ r.d_content.d_width) &&
  decide (y + item.d_content.d_height ≤ r.d_content.d_height) &&
  (List.range item.d_content.d_height).all fun iy =>
    (List.range item.d_content.d_width).all fun ix =>
      !(r.d_content.elementAtLocation (x + ix) (y + iy) &&
        item.d_content.elementAtLocation ix iy)

/-- The dynamic type of the current drop target, as the dynamic casts in the
source distinguish it: an InventoryReceiver or some other window. -/
inductive DropTargetKind : Type where
  | receiver (r : InventoryReceiver)
  | otherWindow
deriving DecidableEq

/-- Accessor currentDropTargetIsValid: returns the cached flag. -/
def InventoryItem.currentDropTargetIsValid (item : InventoryItem) : Bool :=
  item.d_validDropTarget

/-- Transcription of the d_validDropTarget recomputation in
InventoryItem::onMoved: when the drop target casts to an InventoryReceiver,
offset the outer rect by half a receiver cell, map the resulting left/top
pixel position to a receiver grid cell, and ask the receiver whether the item
will fit there; otherwise the flag becomes false. -/
def InventoryItem.onMoved (item : InventoryItem)
    (d_dropTarget : Option DropTargetKind) : InventoryItem :=
  match d_dropTarget with
  | some (DropTargetKind.receiver r) =>
      let square_size := r.squareSize
      let areaLeft := item.unclippedOuterRect.d_min.x + square_size.d_width / 2
      let areaTop := item.unclippedOuterRect.d_min.y + square_size.d_height / 2
      let x := r.gridXLocationFromPixelPosition areaLeft
      let y := r.gridYLocationFromPixelPosition areaTop
      { item with d_validDropTarget := r.itemWillFitAtLocation item x y }
  | _ => { item with d_validDropTarget := false }

/-- Transcription of InventoryItem::onDragDropTargetChanged: the flag becomes
exactly whether the new drop target casts to an InventoryReceiver. -/
def InventoryItem.onDragDropTargetChanged (item : InventoryItem)
    (d_dropTarget : Option DropTargetKind) : InventoryItem :=
  { item with d_validDropTarget :=
      match d_dropTarget with
      | some (DropTargetKind.receiver _) => true
      | _ => false }

/-- Whether an optional drop target is an InventoryReceiver. -/
def isReceiverTarget : Option DropTargetKind → Bool
  | some (DropTargetKind.receiver _) => true
  | _ => false

/-- Transcription of the tint selection in
InventoryItem::populateGeometryBuffer: opaque red 0xFFFF0000 while dragging
over an invalid target, opaque green 0xFF00FF00 otherwise. -/
def InventoryItem.populateTint (item : InventoryItem) : ℕ :=
  if item.d_dragging && !item.currentDropTargetIsValid then 0xFFFF0000
  else 0xFF00FF00

/-- The fully solid 2x2 item of the claim scenario, positioned with its outer
rect at the receiver origin, while being dragged. -/
def itemDemo : InventoryItem where
  d_content := ⟨2, 2, [[true, true], [true, true]]⟩
  d_dragging := true
  d_validDropTarget := false
  unclippedOuterRect := ⟨⟨0, 0⟩, ⟨20, 20⟩⟩

/-- A 4x4 receiver with all cells free, 10x10 pixel cells based at the
origin. -/
def receiverFree : InventoryReceiver where
  d_content := ⟨4, 4, [[false, false, false, false], [false, false, false, false],
    [false, false, false, false], [false, false, false, false]]⟩
  squareSize := ⟨10, 10⟩
  basePixelRect := ⟨⟨0, 0⟩, ⟨40, 40⟩⟩

/-- The same receiver with the cell (0, 0) already occupied, so the 2x2 item
at the origin overlaps an occupied cell. -/
def receiverBlocked : InventoryReceiver where
  d_content := ⟨4, 4, [[true, false, false, false], [false, false, false, false],
    [false, false, false, false], [false, false, false, false]]⟩
  squareSize := ⟨10, 10⟩
  basePixelRect := ⟨⟨0, 0⟩, ⟨40, 40⟩⟩

/-- A receiver with every cell occupied, used to show that the target-changed
handler performs no fit check. -/
def receiverFull : InventoryReceiver where
  d_content := ⟨2, 2, [[true, true], [true, true]]⟩
  squareSize := ⟨10, 10⟩
  basePixelRect := ⟨⟨0, 0⟩, ⟨20, 20⟩⟩

/-! ## Titlebar.cpp: onCursorPressHold

The titlebar refuses to start a drag when the press point resolves to a
sizing border on the owning FrameWindow. The screen-to-window coordinate
conversions are supplied as inputs, since the geometry transform lives
outside the provided sources. -/

/-- CursorInputSource values relevant to the handler. -/
inductive CursorInputSource : Type where
  | Left
  | Right
  | Middle
deriving DecidableEq

/-- The titlebar state the handler reads and writes. -/
structure TitlebarState where
  d_dragging : Bool
  d_dragPoint : Vec2
  d_oldCursorArea : Rectf
  d_dragEnabled : Bool
deriving DecidableEq

/-- The cursor state the handler may write: the movement constraint area. -/
structure CursorState where
  constraintArea : Rectf
deriving DecidableEq

/-- The dynamic type of the titlebar parent, as the dynamic cast in the
source distinguishes it: a FrameWindow, some other window, or no parent. -/
inductive TitlebarParent : Type where
  | frame (fw : FrameWindowSizing)
  | otherWindow
  | noParent
deriving DecidableEq

/-- Whether d_parent is non-null. -/
def TitlebarParent.isSome : TitlebarParent → Bool
  | TitlebarParent.noParent => false
  | _ => true

/-- The outcome of the press-hold handler: new titlebar state, new cursor
state, and whether input capture was taken. -/
structure TitlebarPressOutcome where
  tb : TitlebarState
  cursor : CursorState
  captureTaken : Bool
deriving DecidableEq

/-- Transcription of Titlebar::onCursorPressHold for the left cursor source:
if the parent casts to a FrameWindow with sizing enabled and the press point
lies on a sizing border, return without touching any state; otherwise, with a
parent and dragging enabled, attempt capture and on success set d_dragging,
record the drag point, save the old constraint area and narrow the constraint
to the grandparent inner clip rect (or the screen rect without one)
intersected with the old area. captureOk stands for the success of
captureInput(), and the two local cursor positions stand for the
screenToWindow conversions onto the frame and onto the titlebar. -/
def Titlebar.onCursorPressHold
    (tb : TitlebarState) (cursor : CursorState) (parent : TitlebarParent)
    (source : CursorInputSource) (localPosOnFrame localPosOnSelf : Vec2)
    (grandParentInnerClip : Option Rectf) (rootContainerSize : Sizef)
    (captureOk : Bool) : TitlebarPressOutcome :=
  if source = CursorInputSource.Left then
    let deferToFrame : Bool :=
      match parent with
      | TitlebarParent.frame fw =>
          fw.d_sizingEnabled &&
          decide (fw.getSizingBorderAtPoint localPosOnFrame ≠ SizingLocation.Invalid)
      | _ => false
    if deferToFrame then ⟨tb, cursor, false⟩
    else if parent.isSome && tb.d_dragEnabled then
      if captureOk then
        let oldArea := cursor.constraintArea
        let constrainArea :=
          match grandParentInnerClip with
          | some clip => clip.getIntersection oldArea
          | none =>
              (Rectf.mk ⟨0, 0⟩
                ⟨rootContainerSize.d_width, rootContainerSize.d_height⟩).getIntersection
                oldArea
        ⟨⟨true, localPosOnSelf, oldArea, tb.d_dragEnabled⟩, ⟨constrainArea⟩, true⟩
      else ⟨tb, cursor, false⟩
    else ⟨tb, cursor, false⟩
  else ⟨tb, cursor, false⟩

end CEGUI

/-! ## Claim theorems -/

open CEGUI

section ClaimTheorems

/- Mathlib marks the rational arithmetic operations irreducible, which blocks
the decide tactic on concrete rational scenarios; the kernel itself reduces
them fine, so they are made semireducible locally. -/
attribute [local semireducible] Rat.add Rat.sub Rat.mul Rat.inv

/-- C1: for every Window, isEffectiveVisible() returns the logical AND of the
window local visible flag and the parent isEffectiveVisible(); for a root
window (no parent) it returns exactly the window own visible flag. -/
theorem C1_isEffectiveVisible_spec (w : Win) :
    (w.d_parent = none → w.isEffectiveVisible = w.d_visible) ∧
    (∀ p : Win, w.d_parent = some p →
      w.isEffectiveVisible = (w.d_visible && p.isEffectiveVisible)) := by
  cases w with
  | root v =>
      refine ⟨fun _ => rfl, fun p hp => ?_⟩
      simp [Win.d_parent] at hp
  | child v p =>
      refine ⟨fun h => ?_, fun q hq => ?_⟩
      · simp [Win.d_parent] at h
      · simp [Win.d_parent] at hq
        subst hq
        rfl

/-- C1 witness: instantiation on a concrete two-window chain. -/
theorem C1_isEffectiveVisible_spec_witness :
    (Win.child true (Win.root false)).isEffectiveVisible =
      ((Win.child true (Win.root false)).d_visible &&
        (Win.root false).isEffectiveVisible) :=
  (C1_isEffectiveVisible_spec (Win.child true (Win.root false))).2
    (Win.root false) rfl

/-- C4: PropertyHelper for WindowUpdateMode maps "Always" to Always, "Never"
to Never, "Visible" to Visible, every other string (including "garbage") to
Visible; toString reproduces the exact literals, so toString after fromString
round-trips on the three valid literals. -/
theorem C4_WindowUpdateMode_roundtrip :
    PropertyHelperWindowUpdateMode.fromString "Always" = WindowUpdateMode.Always ∧
    PropertyHelperWindowUpdateMode.fromString "Never" = WindowUpdateMode.Never ∧
    PropertyHelperWindowUpdateMode.fromString "Visible" = WindowUpdateMode.Visible ∧
    PropertyHelperWindowUpdateMode.fromString "garbage" = WindowUpdateMode.Visible ∧
    (∀ s : String, s ≠ "Always" → s ≠ "Never" →
      PropertyHelperWindowUpdateMode.fromString s = WindowUpdateMode.Visible) ∧
    PropertyHelperWindowUpdateMode.toString WindowUpdateMode.Always = "Always" ∧
    PropertyHelperWindowUpdateMode.toString WindowUpdateMode.Never = "Never" ∧
    PropertyHelperWindowUpdateMode.toString WindowUpdateMode.Visible = "Visible" ∧
    (∀ s : String, s = "Always" ∨ s = "Never" ∨ s = "Visible" →
      PropertyHelperWindowUpdateMode.toString
        (PropertyHelperWindowUpdateMode.fromString s) = s) := by
  refine ⟨by decide, by decide, by decide, by decide, ?_, rfl, rfl, rfl, ?_⟩
  · intro s h1 h2
    simp [PropertyHelperWindowUpdateMode.fromString, h1, h2]
  · rintro s (rfl | rfl | rfl) <;> decide

/-- C4 witness: the fallback branch evaluated at a concrete malformed string. -/
theorem C4_WindowUpdateMode_roundtrip_witness :
    PropertyHelperWindowUpdateMode.fromString "blah" = WindowUpdateMode.Visible :=
  C4_WindowUpdateMode_roundtrip.2.2.2.2.1 "blah" (by decide) (by decide)

/-- C2: on the demo FrameWindow (sizing enabled, border 8, outer rect
(0,0)-(200,100)) the point (2,2) classifies as TopLeft, (100,2) as Top,
(100,50) as Invalid and (250,50) as Invalid; in general a point outside the
outer rect or inside the inset inner rect is Invalid, and the corner zones
are tested before the single-edge zones in the order top-left, top-right,
bottom-left, bottom-right. -/
theorem C2_getSizingBorderAtPoint_spec :
    fwDemo.getSizingBorderAtPoint ⟨2, 2⟩ = SizingLocation.TopLeft ∧
    fwDemo.getSizingBorderAtPoint ⟨100, 2⟩ = SizingLocation.Top ∧
    fwDemo.getSizingBorderAtPoint ⟨100, 50⟩ = SizingLocation.Invalid ∧
    fwDemo.getSizingBorderAtPoint ⟨250, 50⟩ = SizingLocation.Invalid ∧
    (∀ (fw : FrameWindowSizing) (pt : Vec2),
      fw.sizingRect.isPointInRectf pt = false →
      fw.getSizingBorderAtPoint pt = SizingLocation.Invalid) ∧
    (∀ (fw : FrameWindowSizing) (pt : Vec2),
      (insetByBorder fw.sizingRect fw.d_borderSize).isPointInRectf pt = true →
      fw.getSizingBorderAtPoint pt = SizingLocation.Invalid) ∧
    (∀ (fw : FrameWindowSizing) (pt : Vec2),
      fw.d_sizingEnabled = true → fw.d_frameEnabled = true →
      fw.sizingRect.isPointInRectf pt = true →
      pt.y < (insetByBorder fw.sizingRect fw.d_borderSize).d_min.y →
      pt.x < (insetByBorder fw.sizingRect fw.d_borderSize).d_min.x →
      fw.getSizingBorderAtPoint pt = SizingLocation.TopLeft) ∧
    (∀ (fw : FrameWindowSizing) (pt : Vec2),
      fw.d_sizingEnabled = true → fw.d_frameEnabled = true →
      fw.sizingRect.isPointInRectf pt = true →
      pt.y < (insetByBorder fw.sizingRect fw.d_borderSize).d_min.y →
      pt.x ≥ (insetByBorder fw.sizingRect fw.d_borderSize).d_max.x →
      ¬ pt.x < (insetByBorder fw.sizingRect fw.d_borderSize).d_min.x →
      fw.getSizingBorderAtPoint pt = SizingLocation.TopRight) ∧
    (∀ (fw : FrameWindowSizing) (pt : Vec2),
      fw.d_sizingEnabled = true → fw.d_frameEnabled = true →
      fw.sizingRect.isPointInRectf pt = true →
      pt.y ≥ (insetByBorder fw.sizingRect fw.d_borderSize).d_max.y →
      pt.x < (insetByBorder fw.sizingRect fw.d_borderSize).d_min.x →
      ¬ pt.y < (insetByBorder fw.sizingRect fw.d_borderSize).d_min.y →
      fw.getSizingBorderAtPoint pt = SizingLocation.BottomLeft) ∧
    (∀ (fw : FrameWindowSizing) (pt : Vec2),
      fw.d_sizingEnabled = true → fw.d_frameEnabled = true →
      fw.sizingRect.isPointInRectf pt = true →
      pt.y ≥ (insetByBorder fw.sizingRect fw.d_borderSize).d_max.y →
      pt.x ≥ (insetByBorder fw.sizingRect fw.d_borderSize).d_max.x →
      ¬ pt.y < (insetByBorder fw.sizingRect fw.d_borderSize).d_min.y →
      ¬ pt.x < (insetByBorder fw.sizingRect fw.d_borderSize).d_min.x →
      fw.getSizingBorderAtPoint pt = SizingLocation.BottomRight) := by
  refine ⟨by decide, by decide, by decide, by decide, ?_, ?_, ?_, ?_, ?_, ?_⟩
  · intro fw pt h
    simp only [FrameWindowSizing.getSizingBorderAtPoint, h, Bool.false_eq_true,
      if_false, ite_self]
  · intro fw pt h
    simp only [Rectf.isPointInRectf, Bool.and_eq_true, decide_eq_true_eq] at h
    obtain ⟨⟨⟨hx1, hx2⟩, hy1⟩, hy2⟩ := h
    simp only [FrameWindowSizing.getSizingBorderAtPoint,
      decide_eq_false (not_lt.mpr hy1), decide_eq_false (not_le.mpr hy2),
      decide_eq_false (not_lt.mpr hx1), decide_eq_false (not_le.mpr hx2),
      Bool.and_self, Bool.false_eq_true, if_false, ite_self]
  · intro fw pt hs hf hin htop hleft
    simp only [FrameWindowSizing.getSizingBorderAtPoint, hs, hf, hin,
      decide_eq_true htop, decide_eq_true hleft, Bool.and_self, if_true]
  · intro fw pt hs hf hin htop hright hnl
    simp only [FrameWindowSizing.getSizingBorderAtPoint, hs, hf, hin,
      decide_eq_true htop, decide_eq_true hright, decide_eq_false hnl,
      Bool.and_self, Bool.and_false, Bool.and_true, Bool.false_eq_true,
      if_false, if_true]
  · intro fw pt hs hf hin hbottom hleft hnt
    simp only [FrameWindowSizing.getSizingBorderAtPoint, hs, hf, hin,
      decide_eq_true hbottom, decide_eq_true hleft, decide_eq_false hnt,
      Bool.and_self, Bool.false_and, Bool.true_and, Bool.false_eq_true,
      if_false, if_true]
  · intro fw pt hs hf hin hbottom hright hnt hnl
    simp only [FrameWindowSizing.getSizingBorderAtPoint, hs, hf, hin,
      decide_eq_true hbottom, decide_eq_true hright, decide_eq_false hnt,
      decide_eq_false hnl, Bool.and_self, Bool.false_and, Bool.true_and,
      Bool.and_false, Bool.false_eq_true, if_false, if_true]

/-- C2 witness: the outside-the-outer-rect conjunct applied at a concrete
point outside the demo rect. -/
theorem C2_getSizingBorderAtPoint_spec_witness :
    fwDemo.getSizingBorderAtPoint ⟨300, 50⟩ = SizingLocation.Invalid :=
  C2_getSizingBorderAtPoint_spec.2.2.2.2.1 fwDemo ⟨300, 50⟩ (by decide)

/-- C3: on a FrameWindow with minimum width 50, maximum width 300 and current
pixel width 100, moveRightEdge with delta +500 yields a resulting width of
exactly 300 (the max-size clamp), not 600. -/
theorem C3_moveRightEdge_clamps_to_max :
    (fwEdgeDemo.moveRightEdge 500 areaDemo).1.offsetWidth = 300 ∧
    (fwEdgeDemo.moveRightEdge 500 areaDemo).1.offsetWidth ≠ 600 := by
  constructor <;> decide

/-- C7: setupRenderingBlendMode issues no GL blend calls and leaves the
cached state unchanged when the requested mode equals the cached active mode
and force is false; with force true it always issues the blend calls,
RttPremultiplied giving blendFunc(ONE, ONE_MINUS_SRC_ALPHA) and Normal giving
blendFuncSeparate(SRC_ALPHA, ONE_MINUS_SRC_ALPHA, ONE_MINUS_DST_ALPHA, ONE). -/
theorem C7_setupRenderingBlendMode_spec :
    (∀ (st : RendererBlendState) (mode : BlendMode),
      st.d_activeBlendMode = mode →
      setupRenderingBlendMode st mode false = (st, [])) ∧
    (∀ (st : RendererBlendState),
      setupRenderingBlendMode st BlendMode.RttPremultiplied true =
        (⟨BlendMode.RttPremultiplied⟩,
         [GLBlendCall.blendFunc GLBlendFactor.GL_ONE
            GLBlendFactor.GL_ONE_MINUS_SRC_ALPHA])) ∧
    (∀ (st : RendererBlendState),
      setupRenderingBlendMode st BlendMode.Normal true =
        (⟨BlendMode.Normal⟩,
         [GLBlendCall.blendFuncSeparate GLBlendFactor.GL_SRC_ALPHA
            GLBlendFactor.GL_ONE_MINUS_SRC_ALPHA
            GLBlendFactor.GL_ONE_MINUS_DST_ALPHA GLBlendFactor.GL_ONE])) := by
  refine ⟨?_, ?_, ?_⟩
  · intro st mode h
    simp [setupRenderingBlendMode, h]
  · intro st
    cases st
    simp [setupRenderingBlendMode]
  · intro st
    cases st
    simp [setupRenderingBlendMode]

/-- C7 witness: the skip conjunct applied at a concrete cached state. -/
theorem C7_setupRenderingBlendMode_spec_witness :
    setupRenderingBlendMode ⟨BlendMode.Normal⟩ BlendMode.Normal false =
      (⟨BlendMode.Normal⟩, []) :=
  C7_setupRenderingBlendMode_spec.1 ⟨BlendMode.Normal⟩ BlendMode.Normal rfl

/-- C8 counterexample: the claim asserts the bufferSubData path is used
whenever the new byte size does not exceed the capacity, but on empty vertex
data (byte size 0, capacity 8) the source returns early and issues no buffer
call at all. -/
theorem C8_uploadVertexData_claim_counterexample :
    ([] : List ℚ).length * 4 ≤ 8 ∧
    (uploadVertexData ([] : List ℚ) 8).2 = [] := by
  constructor <;> decide

/-- C8 amended: for nonempty vertex data, a byte size not exceeding the
capacity takes the in-place bufferSubData path and leaves the capacity
unchanged, while a byte size exceeding the capacity takes the bufferData
path and the capacity becomes exactly the new byte size; for empty data no
call is issued and the capacity is unchanged. In every case the capacity
never shrinks. -/
theorem C8_uploadVertexData_amended (vertex_data : List ℚ) (cap : ℕ) :
    (vertex_data ≠ [] → vertex_data.length * 4 ≤ cap →
      uploadVertexData vertex_data cap =
        (cap, [GLBufferCall.bindBuffer,
               GLBufferCall.bufferSubData (vertex_data.length * 4)])) ∧
    (vertex_data ≠ [] → vertex_data.length * 4 > cap →
      uploadVertexData vertex_data cap =
        (vertex_data.length * 4,
         [GLBufferCall.bindBuffer,
          GLBufferCall.bufferData (vertex_data.length * 4)])) ∧
    (vertex_data = [] → uploadVertexData vertex_data cap = (cap, [])) ∧
    cap ≤ (uploadVertexData vertex_data cap).1 := by
  refine ⟨?_, ?_, ?_, ?_⟩
  · intro hne hle
    simp [uploadVertexData, List.isEmpty_iff, hne, Nat.not_lt.mpr hle]
  · intro hne hgt
    simp [uploadVertexData, List.isEmpty_iff, hne, hgt]
  · intro he
    subst he
    simp [uploadVertexData]
  · by_cases he : vertex_data = []
    · subst he
      simp [uploadVertexData]
    · by_cases hgt : vertex_data.length * 4 > cap
      · simp [uploadVertexData, List.isEmpty_iff, he, hgt]
        exact Nat.le_of_lt hgt
      · simp [uploadVertexData, List.isEmpty_iff, he, hgt]

/-- C8 witness: both branches of the amended statement evaluated on concrete
data (two floats, 8 bytes): capacity 12 keeps the sub-data path, capacity 4
reallocates to exactly 8. -/
theorem C8_uploadVertexData_amended_witness :
    uploadVertexData [(1 : ℚ), 2] 12 =
      (12, [GLBufferCall.bindBuffer, GLBufferCall.bufferSubData 8]) ∧
    uploadVertexData [(1 : ℚ), 2] 4 =
      (8, [GLBufferCall.bindBuffer, GLBufferCall.bufferData 8]) :=
  ⟨(C8_uploadVertexData_amended [(1 : ℚ), 2] 12).1 (by decide) (by decide),
   (C8_uploadVertexData_amended [(1 : ℚ), 2] 4).2.1 (by decide) (by decide)⟩

/-- C9: bootstrapSystem fails with InvalidRequest when a System singleton
already exists and otherwise creates the renderer, a default resource
provider and the System; destroySystem fails with InvalidRequest when no
System exists. -/
theorem C9_bootstrap_destroy_system_spec :
    (∀ (st : SystemState) (r : SystemRecord), st.system = some r →
      bootstrapSystem CEGUI_VERSION_ABI st =
        Except.error CEGUIError.InvalidRequest) ∧
    (∀ st : SystemState, st.system = none →
      bootstrapSystem CEGUI_VERSION_ABI st =
        Except.ok ⟨some ⟨true, true⟩⟩) ∧
    (∀ st : SystemState, st.system = none →
      destroySystem st = Except.error CEGUIError.InvalidRequest) ∧
    (∀ (st : SystemState) (r : SystemRecord), st.system = some r →
      destroySystem st = Except.ok ⟨none⟩) := by
  refine ⟨?_, ?_, ?_, ?_⟩
  · intro st r h
    simp [bootstrapSystem, h]
  · intro st h
    simp [bootstrapSystem, h]
  · intro st h
    simp [destroySystem, h]
  · intro st r h
    simp [destroySystem, h]

/-- C9 witness: double bootstrap refused, first bootstrap succeeds, destroy
of a missing System refused, concretely. -/
theorem C9_bootstrap_destroy_system_spec_witness :
    bootstrapSystem CEGUI_VERSION_ABI ⟨some ⟨true, true⟩⟩ =
      Except.error CEGUIError.InvalidRequest ∧
    bootstrapSystem CEGUI_VERSION_ABI ⟨none⟩ = Except.ok ⟨some ⟨true, true⟩⟩ ∧
    destroySystem ⟨none⟩ = Except.error CEGUIError.InvalidRequest :=
  ⟨C9_bootstrap_destroy_system_spec.1 ⟨some ⟨true, true⟩⟩ ⟨true, true⟩ rfl,
   C9_bootstrap_destroy_system_spec.2.1 ⟨none⟩ rfl,
   C9_bootstrap_destroy_system_spec.2.2.1 ⟨none⟩ rfl⟩

/-- C5: the fully solid 2x2 item over a receiver with free cells reports a
valid drop target after the move and renders with opaque green tint
0xFF00FF00; moved to overlap an occupied cell while dragging it reports an
invalid drop target and renders with opaque red tint 0xFFFF0000. -/
theorem C5_inventory_drop_validity :
    ((itemDemo.onMoved
        (some (DropTargetKind.receiver receiverFree))).currentDropTargetIsValid
      = true ∧
     (itemDemo.onMoved
        (some (DropTargetKind.receiver receiverFree))).populateTint
      = 0xFF00FF00) ∧
    ((itemDemo.onMoved
        (some (DropTargetKind.receiver receiverBlocked))).currentDropTargetIsValid
      = false ∧
     (itemDemo.onMoved
        (some (DropTargetKind.receiver receiverBlocked))).d_dragging = true ∧
     (itemDemo.onMoved
        (some (DropTargetKind.receiver receiverBlocked))).populateTint
      = 0xFFFF0000) := by
  refine ⟨⟨?_, ?_⟩, ?_, ?_, ?_⟩ <;> decide

/-- C10: immediately after onDragDropTargetChanged, the cached drop-target
validity is exactly whether the new target is an InventoryReceiver; no fit
check happens, so a fully occupied receiver (where the fit test would say
false) still reads back as a valid target. -/
theorem C10_onDragDropTargetChanged_no_fit_check :
    (∀ (item : InventoryItem) (target : Option DropTargetKind),
      (item.onDragDropTargetChanged target).currentDropTargetIsValid =
        isReceiverTarget target) ∧
    (itemDemo.onDragDropTargetChanged
        (some (DropTargetKind.receiver receiverFull))).currentDropTargetIsValid
      = true ∧
    receiverFull.itemWillFitAtLocation itemDemo 0 0 = false := by
  refine ⟨?_, by decide, by decide⟩
  intro item target
  rcases target with _ | k
  · rfl
  · rcases k with r | _ <;> rfl

/-- C6: a left press-hold on a Titlebar at a point that resolves to a valid
sizing-border location on the parent FrameWindow (sizing enabled) takes no
capture and changes no state: the dragging flag, the drag point and the
cursor constraint area are all unchanged. -/
theorem C6_titlebar_defers_to_sizing
    (tb : TitlebarState) (cursor : CursorState) (fw : FrameWindowSizing)
    (posF posS : Vec2) (gp : Option Rectf) (root : Sizef) (captureOk : Bool)
    (hsz : fw.d_sizingEnabled = true)
    (hborder : fw.getSizingBorderAtPoint posF ≠ SizingLocation.Invalid) :
    Titlebar.onCursorPressHold tb cursor (TitlebarParent.frame fw)
      CursorInputSource.Left posF posS gp root captureOk =
      ⟨tb, cursor, false⟩ := by
  simp [Titlebar.onCursorPressHold, hsz, hborder]

/-- C6 witness: the demo FrameWindow with the press point (2,2), which is on
the TopLeft sizing border, with dragging enabled and capture available. -/
theorem C6_titlebar_defers_to_sizing_witness :
    Titlebar.onCursorPressHold
      ⟨false, ⟨0, 0⟩, ⟨⟨0, 0⟩, ⟨800, 600⟩⟩, true⟩
      ⟨⟨⟨0, 0⟩, ⟨800, 600⟩⟩⟩
      (TitlebarParent.frame fwDemo)
      CursorInputSource.Left ⟨2, 2⟩ ⟨2, 2⟩ none ⟨800, 600⟩ true =
      ⟨⟨false, ⟨0, 0⟩, ⟨⟨0, 0⟩, ⟨800, 600⟩⟩, true⟩,
       ⟨⟨⟨0, 0⟩, ⟨800, 600⟩⟩⟩, false⟩ :=
  C6_titlebar_defers_to_sizing
    ⟨false, ⟨0, 0⟩, ⟨⟨0, 0⟩, ⟨800, 600⟩⟩, true⟩
    ⟨⟨⟨0, 0⟩, ⟨800, 600⟩⟩⟩ fwDemo ⟨2, 2⟩ ⟨2, 2⟩ none ⟨800, 600⟩ true
    (by decide) (by decide)

end ClaimTheorems
